import Mathlib

/-!
Shallow embedding of `src/app.py` from the year-review repository.

The module holds two module-level constants, `default` (a list of four
fallback messages) and `present` (the year 2021), and one function
`review(year)` that

* raises `TypeError("Expected int, received <typename>")` when
  `isinstance(year, int)` is false (note: in Python, `bool` is a
  subclass of `int`, so booleans pass this check);
* raises `ValueError("Can't review a year that has not happened yet
  (year > 2021)")` when `year > present`;
* returns a fixed string for the six special years 0, 42, 1337, 1984,
  1987, 2020;
* otherwise returns `default[random.randint(0, len(default) - 1)]`.

Python values that can reach `review` are modelled by the tagged type
`PyVal`; the randomness source is modelled by passing the
`random.randint` function itself as an oracle argument, so that a
theorem can assume exactly its documented contract
(`lo ≤ randint lo hi ≤ hi` whenever `lo ≤ hi`).  Python list indexing
(which accepts negative indices and otherwise raises `IndexError`) is
modelled by `pyGetItem`.
-/

namespace YearReview

/-- A Python runtime value of one of the types that the repository's
tests and spec exercise: `int`, `bool`, `float`, `str`.  The float
payload is modelled as a rational number. -/
inductive PyVal where
  | int (n : Int)
  | bool (b : Bool)
  | float (q : Rat)
  | str (s : String)
deriving DecidableEq, Repr

/-- `type(v).__name__` for a `PyVal`. -/
def PyVal.typeName : PyVal → String
  | .int _ => "int"
  | .bool _ => "bool"
  | .float _ => "float"
  | .str _ => "str"

/-- `isinstance(v, int)` for a `PyVal`.  In Python, `bool` is a
subclass of `int`, so booleans satisfy this check. -/
def PyVal.isinstanceInt : PyVal → Bool
  | .int _ => true
  | .bool _ => true
  | _ => false

/-- The integer value a `PyVal` denotes in arithmetic/comparison
contexts (`True == 1`, `False == 0`); only used on values passing
`isinstance(·, int)`. -/
def PyVal.intVal : PyVal → Int
  | .int n => n
  | .bool b => if b then 1 else 0
  | _ => 0

/-- A raised Python exception, carrying its message. -/
inductive PyError where
  | typeError (msg : String)
  | valueError (msg : String)
  | indexError (msg : String)
deriving DecidableEq, Repr

/-- `default = ["Meh", "Boring", "What about it?", "Nothing special"]`. -/
def default : List String := ["Meh", "Boring", "What about it?", "Nothing special"]

/-- `present = 2021`. -/
def present : Int := 2021

/-- Python list subscription `l[i]`: a nonnegative index must be below
the length, a negative index counts from the end, anything else raises
`IndexError`. -/
def pyGetItem (l : List String) (i : Int) : Except PyError String :=
  if 0 ≤ i ∧ i < (l.length : Int) then
    .ok (l.getD i.toNat "")
  else if -(l.length : Int) ≤ i ∧ i < 0 then
    .ok (l.getD (i + (l.length : Int)).toNat "")
  else
    .error (.indexError "list index out of range")

/-- `review(year)` from `src/app.py`, with `random.randint` passed as
an oracle.  Raised exceptions become `Except.error`. -/
def review (randint : Int → Int → Int) (year : PyVal) : Except PyError String :=
  if ¬ year.isinstanceInt then
    .error (.typeError ("Expected int, received " ++ year.typeName))
  else if year.intVal > present then
    .error (.valueError
      ("Can't review a year that has not happened yet (year > " ++ toString present ++ ")"))
  else if year.intVal = 0 then
    .ok "Jesus Christ what a year!"
  else if year.intVal = 42 then
    .ok "A year worth living for"
  else if year.intVal = 1337 then
    .ok ":sunglasses:"
  else if year.intVal = 1984 then
    .ok "You never felt alone"
  else if year.intVal = 1987 then
    .ok "https://www.youtube.com/watch?v=dQw4w9WgXcQ"
  else if year.intVal = 2020 then
    .ok "Sad year :("
  else
    pyGetItem default (randint 0 ((default.length : Int) - 1))

/-- The module-level mutable environment of `src/app.py`: its two
global bindings. -/
structure ModuleState where
  default : List String
  present : Int
deriving DecidableEq, Repr

/-- The state of the module after it is loaded. -/
def initState : ModuleState := ⟨["Meh", "Boring", "What about it?", "Nothing special"], 2021⟩

/-- `review` with the module globals threaded explicitly: every
statement of the source reads the globals and none assigns to them, so
each exit point returns the state it was given. -/
def reviewSt (randint : Int → Int → Int) (year : PyVal) (s : ModuleState) :
    Except PyError String × ModuleState :=
  if ¬ year.isinstanceInt then
    (.error (.typeError ("Expected int, received " ++ year.typeName)), s)
  else if year.intVal > s.present then
    (.error (.valueError
      ("Can't review a year that has not happened yet (year > " ++ toString s.present ++ ")")), s)
  else if year.intVal = 0 then
    (.ok "Jesus Christ what a year!", s)
  else if year.intVal = 42 then
    (.ok "A year worth living for", s)
  else if year.intVal = 1337 then
    (.ok ":sunglasses:", s)
  else if year.intVal = 1984 then
    (.ok "You never felt alone", s)
  else if year.intVal = 1987 then
    (.ok "https://www.youtube.com/watch?v=dQw4w9WgXcQ", s)
  else if year.intVal = 2020 then
    (.ok "Sad year :(", s)
  else
    (pyGetItem s.default (randint 0 ((s.default.length : Int) - 1)), s)

/-- The first list is letter-for-letter an initial segment of the second. -/
def leadMatch : List Char → List Char → Bool
  | [], _ => true
  | _ :: _, [] => false
  | a :: as, b :: bs => a == b && leadMatch as bs

/-- `pat` occurs contiguously somewhere in the character list. -/
def occursIn (pat : List Char) : List Char → Bool
  | [] => leadMatch pat []
  | c :: tl => leadMatch pat (c :: tl) || occursIn pat tl

/-- `pat` occurs as a substring of `s`. -/
def strContains (s pat : String) : Bool := occursIn pat.data s.data

/-- The six keys of the special-year table, as the source tests them. -/
def specialYears : List Int := [0, 42, 1337, 1984, 1987, 2020]

lemma pyGetItem_ok_mem (l : List String) (i : Int)
    (h0 : 0 ≤ i) (h1 : i < (l.length : Int)) :
    pyGetItem l i = .ok (l.getD i.toNat "") ∧ l.getD i.toNat "" ∈ l := by
  have hb : i.toNat < l.length := by omega
  constructor
  · simp [pyGetItem, h0, h1]
  · rw [List.getD_eq_getElem l "" hb]
    exact List.getElem_mem hb

lemma review_nonspecial (randint : Int → Int → Int) (y : Int)
    (h1 : y ≤ present) (h2 : y ∉ specialYears) :
    review randint (.int y) =
      pyGetItem default (randint 0 ((default.length : Int) - 1)) := by
  simp only [specialYears, List.mem_cons, List.mem_singleton, not_or] at h2
  obtain ⟨n0, n42, n1337, n1984, n1987, n2020, -⟩ := h2
  simp [review, PyVal.isinstanceInt, PyVal.intVal, not_lt.mpr h1,
    n0, n42, n1337, n1984, n1987, n2020]

lemma review_default_member_aux (randint : Int → Int → Int)
    (hr : ∀ lo hi : Int, lo ≤ hi → lo ≤ randint lo hi ∧ randint lo hi ≤ hi)
    (y : Int) (h1 : y ≤ present) (h2 : y ∉ specialYears) :
    ∃ s, review randint (.int y) = .ok s ∧ s ∈ default := by
  obtain ⟨hlo, hhi⟩ := hr 0 ((default.length : Int) - 1) (by decide)
  have hlen : (default.length : Int) = 4 := by decide
  obtain ⟨he, hm⟩ := pyGetItem_ok_mem default (randint 0 ((default.length : Int) - 1))
    hlo (by omega)
  exact ⟨_, (review_nonspecial randint y h1 h2).trans he, hm⟩

/-- C1: for every integer y ≤ 2021 (the value of `present`) that is not
one of the six special years, `review` returns a member of `default`;
the boundary is inclusive (witnessed at y = 2021 below).  The oracle is
assumed to satisfy the documented contract of `random.randint`. -/
theorem review_le_present_default_member (randint : Int → Int → Int)
    (hr : ∀ lo hi : Int, lo ≤ hi → lo ≤ randint lo hi ∧ randint lo hi ≤ hi)
    (y : Int) (h1 : y ≤ present) (h2 : y ∉ specialYears) :
    ∃ s, review randint (.int y) = .ok s ∧ s ∈ default :=
  review_default_member_aux randint hr y h1 h2

theorem review_le_present_default_member_witness :
    ∃ s, review (fun lo _ => lo) (.int 2021) = .ok s ∧ s ∈ default :=
  review_le_present_default_member (fun lo _ => lo)
    (fun lo hi h => ⟨le_refl lo, h⟩) 2021 (by decide) (by decide)

/-- C2: each key of the special-year table maps to its fixed string,
for any randomness oracle. -/
theorem review_special_years (randint : Int → Int → Int) :
    review randint (.int 0) = .ok "Jesus Christ what a year!" ∧
    review randint (.int 42) = .ok "A year worth living for" ∧
    review randint (.int 1337) = .ok ":sunglasses:" ∧
    review randint (.int 1984) = .ok "You never felt alone" ∧
    review randint (.int 1987) = .ok "https://www.youtube.com/watch?v=dQw4w9WgXcQ" ∧
    review randint (.int 2020) = .ok "Sad year :(" :=
  ⟨rfl, rfl, rfl, rfl, rfl, rfl⟩

theorem review_special_years_witness :
    review (fun lo _ => lo) (.int 0) = .ok "Jesus Christ what a year!" ∧
    review (fun lo _ => lo) (.int 42) = .ok "A year worth living for" ∧
    review (fun lo _ => lo) (.int 1337) = .ok ":sunglasses:" ∧
    review (fun lo _ => lo) (.int 1984) = .ok "You never felt alone" ∧
    review (fun lo _ => lo) (.int 1987) = .ok "https://www.youtube.com/watch?v=dQw4w9WgXcQ" ∧
    review (fun lo _ => lo) (.int 2020) = .ok "Sad year :(" :=
  review_special_years (fun lo _ => lo)

/-- C3: every integer strictly greater than `present` = 2021 makes
`review` raise a `ValueError` whose message contains the phrase about
unreviewable future years and the boundary value 2021. -/
theorem review_future_raises_valueError (randint : Int → Int → Int)
    (y : Int) (h : present < y) :
    review randint (.int y) =
      .error (.valueError "Can't review a year that has not happened yet (year > 2021)") ∧
    strContains "Can't review a year that has not happened yet (year > 2021)"
      "Can't review a year that has not happened yet" = true ∧
    strContains "Can't review a year that has not happened yet (year > 2021)" "2021" = true := by
  refine ⟨?_, by decide, by decide⟩
  have hmsg : ("Can't review a year that has not happened yet (year > " ++
      toString present ++ ")")
      = "Can't review a year that has not happened yet (year > 2021)" := by decide
  simp [review, PyVal.isinstanceInt, PyVal.intVal, h, hmsg]

theorem review_future_raises_valueError_witness :
    review (fun lo _ => lo) (.int 2022) =
      .error (.valueError "Can't review a year that has not happened yet (year > 2021)") ∧
    strContains "Can't review a year that has not happened yet (year > 2021)"
      "Can't review a year that has not happened yet" = true ∧
    strContains "Can't review a year that has not happened yet (year > 2021)" "2021" = true :=
  review_future_raises_valueError (fun lo _ => lo) 2022 (by decide)

/-- C4: every value whose runtime type is not an integer type makes
`review` raise a `TypeError` whose message contains the name of the
actual runtime type received. -/
theorem review_non_int_typeError (randint : Int → Int → Int) (v : PyVal)
    (h : v.isinstanceInt = false) :
    review randint v = .error (.typeError ("Expected int, received " ++ v.typeName)) ∧
    strContains ("Expected int, received " ++ v.typeName) v.typeName = true := by
  constructor
  · simp [review, h]
  · cases v with
    | int n => simp [PyVal.isinstanceInt] at h
    | bool b => simp [PyVal.isinstanceInt] at h
    | float q => simp only [PyVal.typeName]; decide
    | str s => simp only [PyVal.typeName]; decide

theorem review_non_int_typeError_witness :
    review (fun lo _ => lo) (.str "2020") =
      .error (.typeError ("Expected int, received " ++ (PyVal.str "2020").typeName)) ∧
    strContains ("Expected int, received " ++ (PyVal.str "2020").typeName)
      (PyVal.str "2020").typeName = true :=
  review_non_int_typeError (fun lo _ => lo) (.str "2020") rfl

/-- C5 counterexample: the claim says every boolean input is rejected
with a `TypeError`, but `isinstance(False, int)` holds in Python (bool
is a subclass of int), so `review(False)` is not rejected: it returns
the special string for year 0. -/
theorem review_bool_not_rejected :
    review (fun lo _ => lo) (.bool false) = .ok "Jesus Christ what a year!" := rfl

/-- C5 amended: Python treats `bool` as a subclass of `int`, so
booleans pass the `isinstance(year, int)` check and are reviewed as
the integers they equal: `review(False)` behaves as year 0 and returns
its special string, and `review(True)` behaves as year 1 and returns a
member of `default`. -/
theorem review_bool_accepted_as_int (randint : Int → Int → Int)
    (hr : ∀ lo hi : Int, lo ≤ hi → lo ≤ randint lo hi ∧ randint lo hi ≤ hi) :
    (PyVal.bool false).isinstanceInt = true ∧
    (PyVal.bool true).isinstanceInt = true ∧
    review randint (.bool false) = review randint (.int 0) ∧
    review randint (.bool true) = review randint (.int 1) ∧
    review randint (.bool false) = .ok "Jesus Christ what a year!" ∧
    (∃ s, review randint (.bool true) = .ok s ∧ s ∈ default) := by
  refine ⟨rfl, rfl, rfl, rfl, rfl, ?_⟩
  obtain ⟨s, hs, hm⟩ := review_default_member_aux randint hr 1 (by decide) (by decide)
  exact ⟨s, hs, hm⟩

theorem review_bool_accepted_as_int_witness :
    ∃ s, review (fun lo _ => lo) (.bool true) = .ok s ∧ s ∈ default :=
  (review_bool_accepted_as_int (fun lo _ => lo)
    (fun lo hi h => ⟨le_refl lo, h⟩)).2.2.2.2.2

/-- C6: for a non-special year within the boundary, `review` is
exactly an index into `default` drawn by `randint 0 (len - 1)`; the
four indices 0..3 each produce the entry at that index, distinct
indices produce distinct messages, and every one of the four messages
is reachable — so a uniform index gives a uniform message. -/
theorem review_uniform_over_default (randint : Int → Int → Int) (y : Int)
    (h1 : y ≤ present) (h2 : y ∉ specialYears) :
    review randint (.int y) =
      pyGetItem default (randint 0 ((default.length : Int) - 1)) ∧
    default.length = 4 ∧
    (∀ r : Int, 0 ≤ r → r ≤ (default.length : Int) - 1 →
      review (fun _ _ => r) (.int y) = .ok (default.getD r.toNat "")) ∧
    (∀ r q : Int, 0 ≤ r → r ≤ (default.length : Int) - 1 →
      0 ≤ q → q ≤ (default.length : Int) - 1 →
      default.getD r.toNat "" = default.getD q.toNat "" → r = q) ∧
    (∀ s, s ∈ default → ∃ r : Int, 0 ≤ r ∧ r ≤ (default.length : Int) - 1 ∧
      review (fun _ _ => r) (.int y) = .ok s) := by
  have hlen : (default.length : Int) = 4 := by decide
  refine ⟨review_nonspecial randint y h1 h2, rfl, ?_, ?_, ?_⟩
  · intro r h0 hR
    rw [review_nonspecial _ y h1 h2]
    exact (pyGetItem_ok_mem default r h0 (by omega)).1
  · intro r q h0r hRr h0q hRq heq
    rw [hlen] at hRr hRq
    interval_cases r <;> interval_cases q <;> revert heq <;> decide
  · intro s hs
    simp only [default, List.mem_cons, List.not_mem_nil, or_false] at hs
    rcases hs with rfl | rfl | rfl | rfl
    · exact ⟨0, by decide, by decide, by rw [review_nonspecial _ y h1 h2]; rfl⟩
    · exact ⟨1, by decide, by decide, by rw [review_nonspecial _ y h1 h2]; rfl⟩
    · exact ⟨2, by decide, by decide, by rw [review_nonspecial _ y h1 h2]; rfl⟩
    · exact ⟨3, by decide, by decide, by rw [review_nonspecial _ y h1 h2]; rfl⟩

theorem review_uniform_over_default_witness :
    review (fun lo _ => lo) (.int 1) =
      pyGetItem default ((fun lo _ => lo : Int → Int → Int) 0 ((default.length : Int) - 1)) :=
  (review_uniform_over_default (fun lo _ => lo) 1 (by decide) (by decide)).1

/-- C7: for every integer input within the boundary, `review` returns
a string and raises nothing — in particular the random list index is
always within the bounds of `default`, so no `IndexError` is possible
and `TypeError` / `ValueError` are the only failure modes. -/
theorem review_le_present_ok (randint : Int → Int → Int)
    (hr : ∀ lo hi : Int, lo ≤ hi → lo ≤ randint lo hi ∧ randint lo hi ≤ hi)
    (y : Int) (h1 : y ≤ present) :
    ∃ s : String, review randint (.int y) = .ok s := by
  by_cases hspec : y ∈ specialYears
  · simp only [specialYears, List.mem_cons, List.not_mem_nil, or_false] at hspec
    rcases hspec with rfl | rfl | rfl | rfl | rfl | rfl
    · exact ⟨_, rfl⟩
    · exact ⟨_, rfl⟩
    · exact ⟨_, rfl⟩
    · exact ⟨_, rfl⟩
    · exact ⟨_, rfl⟩
    · exact ⟨_, rfl⟩
  · obtain ⟨s, hs, -⟩ := review_default_member_aux randint hr y h1 hspec
    exact ⟨s, hs⟩

theorem review_le_present_ok_witness :
    ∃ s : String, review (fun lo _ => lo) (.int (-10)) = .ok s :=
  review_le_present_ok (fun lo _ => lo) (fun lo hi h => ⟨le_refl lo, h⟩) (-10) (by decide)

/-- C8: `review` never mutates the module globals: with the two global
bindings threaded explicitly, every call — returning or raising, for
any input and any randomness oracle — hands back the state unchanged,
and on the load-time state it computes exactly `review`, whose only
effect is consuming the oracle. -/
theorem review_no_global_mutation (randint : Int → Int → Int) (year : PyVal)
    (s : ModuleState) :
    (reviewSt randint year s).2 = s ∧
    (reviewSt randint year initState).1 = review randint year ∧
    initState.default = default ∧ initState.present = present := by
  refine ⟨?_, ?_, rfl, rfl⟩
  · simp only [reviewSt]
    split_ifs <;> rfl
  · simp only [reviewSt, review, initState, present, default]
    split_ifs <;> rfl

theorem review_no_global_mutation_witness :
    (reviewSt (fun lo _ => lo) (.int 5) initState).2 = initState :=
  (review_no_global_mutation (fun lo _ => lo) (.int 5) initState).1

/-- C9: the exposed constants have the specified values: `default` is
the ordered list of exactly the four strings, and `present` is 2021. -/
theorem module_constants :
    default = ["Meh", "Boring", "What about it?", "Nothing special"] ∧
    default.length = 4 ∧ present = 2021 :=
  ⟨rfl, rfl, rfl⟩

/-- C10: the type check precedes the boundary check: a non-integer
input raises `TypeError` even when its numeric value exceeds
`present`, e.g. a float above 2021 yields the float `TypeError`, never
the future-year `ValueError`. -/
theorem review_type_check_first (randint : Int → Int → Int) (q : Rat)
    (h : (present : Rat) < q) :
    review randint (.float q) = .error (.typeError "Expected int, received float") ∧
    review randint (.float q) ≠
      .error (.valueError "Can't review a year that has not happened yet (year > 2021)") := by
  refine ⟨rfl, ?_⟩
  intro hc
  simp [review, PyVal.isinstanceInt, PyVal.typeName] at hc

theorem review_type_check_first_witness :
    review (fun lo _ => lo) (.float 2525) =
      .error (.typeError "Expected int, received float") ∧
    review (fun lo _ => lo) (.float 2525) ≠
      .error (.valueError "Can't review a year that has not happened yet (year > 2021)") :=
  review_type_check_first (fun lo _ => lo) 2525 (by norm_num [present])

end YearReview
